import Mathlib

/-!
Shallow embedding of `start_services.py`, a deployment-orchestration CLI that
clones a companion repository (sparse checkout of supabase/supabase), copies
an environment file into it, and stops/starts two container stacks through
external `git` / `docker compose` commands.

External effects are recorded as an event trace.  The success of each external
command (exit status zero) is an oracle `res : Cmd → Bool` supplied by the
environment; the Python exception path (`subprocess.CalledProcessError`
re-raised by `run_command` when `check=True`) is modelled as the error case of
`Except Unit`.  Filesystem presence checks (`os.path.exists`) are Boolean
fields of the environment, and `os.chdir` is an event whose effect on the
process working directory is computed by folding over the trace.
-/

/-- An external command line (argument vector), as passed to `subprocess.run`. -/
abbrev Cmd := List String

/-- Observable effects of the script: running an external command, changing
the working directory, copying a file, printing a line, sleeping. -/
inductive Event where
  | run (cmd : Cmd)
  | chdir (d : String)
  | copyFile (src dst : String)
  | print (s : String)
  | sleep (secs : Nat)
deriving DecidableEq

/-- The ambient world: which paths exist, and which external commands succeed. -/
structure Env where
  supabaseDirExists : Bool
  envFileExists : Bool
  res : Cmd → Bool

/-- Effectful computations: an emitted event trace together with either a
normal result or a propagating Python exception. -/
abbrev M (α : Type) : Type := List Event × Except Unit α

def M.pure {α : Type} (a : α) : M α := ([], Except.ok a)

def M.bind {α β : Type} (x : M α) (f : α → M β) : M β :=
  match x with
  | (tr, Except.error e) => (tr, Except.error e)
  | (tr, Except.ok a) => (tr ++ (f a).1, (f a).2)

/-- Emit a single event and succeed. -/
def emit (e : Event) : M Unit := ([e], Except.ok ())

/-- The line `print("Running:", " ".join(cmd))` produces. -/
def runningMsg (cmd : Cmd) : String := "Running: " ++ String.intercalate " " cmd

/-- `run_command(cmd, check=...)`: print the command, run it, and return
whether it exited zero.  With `check=True`, a non-zero exit raises
`CalledProcessError` inside `subprocess.run`; `run_command` logs it and
re-raises.  With `check=False`, `subprocess.run` does not raise and the
function returns `returncode == 0`. -/
def run_command (res : Cmd → Bool) (cmd : Cmd) (check : Bool) : M Bool :=
  if res cmd then
    ([Event.print (runningMsg cmd), Event.run cmd], Except.ok true)
  else if check then
    ([Event.print (runningMsg cmd), Event.run cmd,
      Event.print ("Command failed")], Except.error ())
  else
    ([Event.print (runningMsg cmd), Event.run cmd], Except.ok false)

def cloneCmd : Cmd :=
  ["git", "clone", "--filter=blob:none", "--no-checkout",
   "https://github.com/supabase/supabase.git"]

def sparseInitCmd : Cmd := ["git", "sparse-checkout", "init", "--cone"]

def sparseSetCmd : Cmd := ["git", "sparse-checkout", "set", "docker"]

def checkoutCmd : Cmd := ["git", "checkout", "master"]

def pullCmd : Cmd := ["git", "pull"]

def dockerPsCmd : Cmd := ["docker", "ps"]

/-- The project-scoped `docker compose ... down` command over the given
`-f <file>` reference list. -/
def downCmd (composeFiles : List String) : Cmd :=
  ["docker", "compose", "-p", "localai"] ++ composeFiles ++ ["down"]

/-- `clone_supabase_repo()`: sparse-clone the companion repository when the
`supabase` directory is absent, otherwise `git pull` inside it.  All four
clone-sequence commands and the pull use `run_command`'s default
`check=True`. -/
def clone_supabase_repo (env : Env) : M Unit :=
  if !env.supabaseDirExists then
    M.bind (emit (Event.print ("Cloning the Supabase repository..."))) (fun _ =>
    M.bind (run_command env.res cloneCmd true) (fun _ =>
    M.bind (emit (Event.chdir ("supabase"))) (fun _ =>
    M.bind (run_command env.res sparseInitCmd true) (fun _ =>
    M.bind (run_command env.res sparseSetCmd true) (fun _ =>
    M.bind (run_command env.res checkoutCmd true) (fun _ =>
    emit (Event.chdir (".."))))))))
  else
    M.bind (emit (Event.print ("Supabase repository already exists, updating..."))) (fun _ =>
    M.bind (emit (Event.chdir ("supabase"))) (fun _ =>
    M.bind (run_command env.res pullCmd true) (fun _ =>
    emit (Event.chdir ("..")))))

/-- `prepare_supabase_env()`: copy `./.env` to `supabase/docker/.env`
(`shutil.copyfile` overwrites the destination) when the source exists,
otherwise print a warning and continue. -/
def prepare_supabase_env (env : Env) : M Unit :=
  if env.envFileExists then
    ([Event.print ("Copying .env in root to .env in supabase/docker..."),
      Event.copyFile (".env") ("supabase/docker/.env")], Except.ok ())
  else
    ([Event.print ("Warning: .env file not found in the root directory. Supabase might not work correctly.")],
     Except.ok ())

/-- `stop_existing_containers(components)`: build the `-f` file references for
the selected components, no-op when none, else probe `docker ps` and issue the
project-scoped `down`, both with `check=False`. -/
def stop_existing_containers (res : Cmd → Bool) (components : List String) : M Unit :=
  let compose_files : List String :=
    (if components.contains ("supabase")
     then ["-f", "supabase/docker/docker-compose.yml"] else []) ++
    (if components.contains ("localai")
     then ["-f", "docker-compose.yml"] else [])
  if compose_files = [] then
    emit (Event.print ("No components selected to stop."))
  else
    M.bind (emit (Event.print ("Stopping and removing existing containers for components: "
      ++ String.intercalate ", " components ++ "..."))) (fun _ =>
    M.bind (run_command res dockerPsCmd false) (fun _ =>
    M.bind (run_command res (downCmd compose_files) false) (fun _ =>
    emit (Event.print ("Successfully stopped existing containers or none were running.")))))

/-- The `docker compose ... up -d` command for the Supabase stack. -/
def supUpCmd : Cmd :=
  ["docker", "compose", "-p", "localai", "-f", "supabase/docker/docker-compose.yml",
   "up", "-d"]

/-- `start_supabase()`: bring the Supabase stack up, `check=False`. -/
def start_supabase (res : Cmd → Bool) : M Bool :=
  M.bind (emit (Event.print ("Starting Supabase services..."))) (fun _ =>
  run_command res supUpCmd false)

/-- The local-stack `up` command built by `start_local_ai`: the profile
selector is inserted when the argument is truthy and not `"none"`. -/
def localStartCmd (profile : Option String) : Cmd :=
  ["docker", "compose", "-p", "localai"] ++
  (match profile with
   | Option.some p => if p ≠ "" ∧ p ≠ "none" then ["--profile", p] else []
   | Option.none => []) ++
  ["-f", "docker-compose.yml", "up", "-d"]

/-- `start_local_ai(profile)`: bring the local AI stack up, `check=False`. -/
def start_local_ai (res : Cmd → Bool) (profile : Option String) : M Bool :=
  M.bind (emit (Event.print ("Starting local AI services..."))) (fun _ =>
  run_command res (localStartCmd profile) false)

/-- The `--profile` choices of the argument parser. -/
inductive Profile where
  | cpu
  | gpu_nvidia
  | gpu_amd
  | none
deriving DecidableEq

def profileStr : Profile → String
  | Profile.cpu => "cpu"
  | Profile.gpu_nvidia => "gpu-nvidia"
  | Profile.gpu_amd => "gpu-amd"
  | Profile.none => "none"

/-- The `--components` choices of the argument parser. -/
inductive Components where
  | all
  | supabase
  | localai
deriving DecidableEq

def componentsStr : Components → String
  | Components.all => "all"
  | Components.supabase => "supabase"
  | Components.localai => "localai"

/-- argparse default for `--profile`. -/
def defaultProfile : Profile := Profile.cpu

/-- argparse default for `--components`. -/
def defaultComponents : Components := Components.all

/-- `main()` after argument parsing: select components, ensure companion
assets when Supabase is selected, stop existing containers, then start the
selected stacks with the 10-second pause after a successful Supabase start
when both are selected. -/
def mainRun (env : Env) (profile : Profile) (components : Components) : M Unit :=
  let start_all : Bool := components == Components.all
  let start_supabase_flag : Bool := start_all || components == Components.supabase
  let start_localai_flag : Bool := start_all || components == Components.localai
  let components_to_stop : List String :=
    (if start_supabase_flag then ["supabase"] else []) ++
    (if start_localai_flag then ["localai"] else [])
  M.bind (if start_supabase_flag then
            M.bind (clone_supabase_repo env) (fun _ => prepare_supabase_env env)
          else M.pure ()) (fun _ =>
  M.bind (stop_existing_containers env.res components_to_stop) (fun _ =>
  M.bind (if start_supabase_flag then
            M.bind (start_supabase env.res) (fun supabase_success =>
              if supabase_success && start_localai_flag then
                M.bind (emit (Event.print ("Waiting for Supabase to initialize..."))) (fun _ =>
                emit (Event.sleep 10))
              else M.pure ())
          else M.pure ()) (fun _ =>
  M.bind (if start_localai_flag then
            M.bind (start_local_ai env.res (Option.some (profileStr profile))) (fun _ =>
            M.pure ())
          else M.pure ()) (fun _ =>
  emit (Event.print ("Startup complete for selected components: "
    ++ componentsStr components))))))

/-- One step of the working-directory effect of an event: `os.chdir("..")`
pops a component, `os.chdir(d)` pushes one, everything else is neutral. -/
def stepCwd (cwd : List String) (e : Event) : List String :=
  match e with
  | Event.chdir d => if d = ".." then cwd.tail else d :: cwd
  | _ => cwd

/-- The working directory after a trace, starting from `cwd` (innermost
component first). -/
def cwdAfter (cwd : List String) (tr : List Event) : List String :=
  tr.foldl stepCwd cwd

/-- Whether every `check=True` git command that `clone_supabase_repo` will
issue in this environment succeeds; exactly when this holds, the ensure-assets
step returns normally. -/
def gitStepsOkB (env : Env) : Bool :=
  if env.supabaseDirExists then env.res pullCmd
  else env.res cloneCmd && env.res sparseInitCmd && env.res sparseSetCmd
       && env.res checkoutCmd

/-! ## Trace normal forms -/

@[simp]
theorem M.bind_ok {α β : Type} (tr : List Event) (a : α) (f : α → M β) :
    M.bind (tr, Except.ok a) f = (tr ++ (f a).1, (f a).2) := rfl

@[simp]
theorem M.bind_error {α β : Type} (tr : List Event) (e : Unit) (f : α → M β) :
    M.bind (tr, Except.error e) f = (tr, Except.error e) := rfl

@[simp]
theorem run_command_false_eq (res : Cmd → Bool) (cmd : Cmd) :
    run_command res cmd false
      = ([Event.print (runningMsg cmd), Event.run cmd], Except.ok (res cmd)) := by
  cases h : res cmd <;> simp [run_command, h]

/-- Trace of `clone_supabase_repo` when every git step succeeds. -/
def cloneTraceOk (env : Env) : List Event :=
  if env.supabaseDirExists then
    [Event.print ("Supabase repository already exists, updating..."),
     Event.chdir ("supabase"),
     Event.print (runningMsg pullCmd), Event.run pullCmd,
     Event.chdir ("..")]
  else
    [Event.print ("Cloning the Supabase repository..."),
     Event.print (runningMsg cloneCmd), Event.run cloneCmd,
     Event.chdir ("supabase"),
     Event.print (runningMsg sparseInitCmd), Event.run sparseInitCmd,
     Event.print (runningMsg sparseSetCmd), Event.run sparseSetCmd,
     Event.print (runningMsg checkoutCmd), Event.run checkoutCmd,
     Event.chdir ("..")]

theorem clone_ok_eq (env : Env) (h : gitStepsOkB env = true) :
    clone_supabase_repo env = (cloneTraceOk env, Except.ok ()) := by
  cases hd : env.supabaseDirExists
  · simp only [gitStepsOkB, hd, if_neg Bool.false_ne_true, Bool.and_eq_true] at h
    obtain ⟨⟨⟨h1, h2⟩, h3⟩, h4⟩ := h
    simp [clone_supabase_repo, cloneTraceOk, hd, emit, run_command, h1, h2, h3, h4]
  · simp only [gitStepsOkB, hd, if_pos] at h
    simp [clone_supabase_repo, cloneTraceOk, hd, emit, run_command, h]

/-- Trace of `prepare_supabase_env`. -/
def prepTrace (env : Env) : List Event :=
  if env.envFileExists then
    [Event.print ("Copying .env in root to .env in supabase/docker..."),
     Event.copyFile (".env") ("supabase/docker/.env")]
  else
    [Event.print ("Warning: .env file not found in the root directory. Supabase might not work correctly.")]

@[simp]
theorem prepare_eq (env : Env) :
    prepare_supabase_env env = (prepTrace env, Except.ok ()) := by
  cases he : env.envFileExists <;> simp [prepare_supabase_env, prepTrace, he]

/-- Trace of a non-empty `stop_existing_containers` call. -/
def stopTraceFor (components composeFiles : List String) : List Event :=
  [Event.print ("Stopping and removing existing containers for components: "
     ++ String.intercalate ", " components ++ "..."),
   Event.print (runningMsg dockerPsCmd), Event.run dockerPsCmd,
   Event.print (runningMsg (downCmd composeFiles)), Event.run (downCmd composeFiles),
   Event.print ("Successfully stopped existing containers or none were running.")]

theorem stop_eq_both (res : Cmd → Bool) :
    stop_existing_containers res ["supabase", "localai"]
      = (stopTraceFor ["supabase", "localai"]
           ["-f", "supabase/docker/docker-compose.yml", "-f", "docker-compose.yml"],
         Except.ok ()) := by
  simp [stop_existing_containers, stopTraceFor, emit]

theorem stop_eq_supabase (res : Cmd → Bool) :
    stop_existing_containers res ["supabase"]
      = (stopTraceFor ["supabase"] ["-f", "supabase/docker/docker-compose.yml"],
         Except.ok ()) := by
  simp [stop_existing_containers, stopTraceFor, emit]

theorem stop_eq_localai (res : Cmd → Bool) :
    stop_existing_containers res ["localai"]
      = (stopTraceFor ["localai"] ["-f", "docker-compose.yml"], Except.ok ()) := by
  simp [stop_existing_containers, stopTraceFor, emit]

theorem stop_eq_nil (res : Cmd → Bool) :
    stop_existing_containers res []
      = ([Event.print ("No components selected to stop.")], Except.ok ()) := by
  simp [stop_existing_containers, emit]

@[simp]
theorem start_supabase_eq (res : Cmd → Bool) :
    start_supabase res
      = ([Event.print ("Starting Supabase services..."),
          Event.print (runningMsg supUpCmd), Event.run supUpCmd],
         Except.ok (res supUpCmd)) := by
  simp [start_supabase, emit]

@[simp]
theorem start_local_ai_eq (res : Cmd → Bool) (p : Option String) :
    start_local_ai res p
      = ([Event.print ("Starting local AI services..."),
          Event.print (runningMsg (localStartCmd p)), Event.run (localStartCmd p)],
         Except.ok (res (localStartCmd p))) := by
  simp [start_local_ai, emit]

/-- Full trace of `main` for `components=all` when the git steps succeed. -/
theorem mainRun_all_eq (env : Env) (p : Profile) (h : gitStepsOkB env = true) :
    mainRun env p Components.all
      = (cloneTraceOk env ++ prepTrace env
          ++ stopTraceFor ["supabase", "localai"]
               ["-f", "supabase/docker/docker-compose.yml", "-f", "docker-compose.yml"]
          ++ [Event.print ("Starting Supabase services..."),
              Event.print (runningMsg supUpCmd), Event.run supUpCmd]
          ++ (if env.res supUpCmd then
                [Event.print ("Waiting for Supabase to initialize..."), Event.sleep 10]
              else [])
          ++ [Event.print ("Starting local AI services..."),
              Event.print (runningMsg (localStartCmd (Option.some (profileStr p)))),
              Event.run (localStartCmd (Option.some (profileStr p)))]
          ++ [Event.print ("Startup complete for selected components: all")],
         Except.ok ()) := by
  cases hs : env.res supUpCmd <;>
    simp [mainRun, clone_ok_eq env h, stop_eq_both, componentsStr, M.pure, emit, hs]

theorem mainRun_localai_eq (env : Env) (p : Profile) :
    mainRun env p Components.localai
      = (stopTraceFor ["localai"] ["-f", "docker-compose.yml"]
          ++ [Event.print ("Starting local AI services..."),
              Event.print (runningMsg (localStartCmd (Option.some (profileStr p)))),
              Event.run (localStartCmd (Option.some (profileStr p))),
              Event.print ("Startup complete for selected components: localai")],
         Except.ok ()) := by
  simp [mainRun, stop_eq_localai, M.pure, emit, componentsStr]

/-! ## Claims -/

/-- Claim C3: for every profile choice, the local-stack start command carries
a `--profile` selector exactly when the profile is not `none`, and the
selector value is the provided profile string. -/
theorem C3_profile_selector (res : Cmd → Bool) (p : Profile) :
    (start_local_ai res (Option.some (profileStr p))).1
      = [Event.print ("Starting local AI services..."),
         Event.print (runningMsg (localStartCmd (Option.some (profileStr p)))),
         Event.run (localStartCmd (Option.some (profileStr p)))]
    ∧ (("--profile") ∈ localStartCmd (Option.some (profileStr p)) ↔ p ≠ Profile.none)
    ∧ localStartCmd (Option.some (profileStr p))
        = ["docker", "compose", "-p", "localai"]
          ++ (if p = Profile.none then [] else ["--profile", profileStr p])
          ++ ["-f", "docker-compose.yml", "up", "-d"] := by
  refine ⟨by simp, ?_, ?_⟩ <;> cases p <;> decide

/-- Claim C5: with `components=localai`, no clone or pull runs, no env-file
copy happens, the Supabase start command is never issued, and the stop command
references only the local compose file; the run completes normally. -/
theorem C5_localai_only (env : Env) (p : Profile) :
    (mainRun env p Components.localai).1
      = stopTraceFor ["localai"] ["-f", "docker-compose.yml"]
        ++ [Event.print ("Starting local AI services..."),
            Event.print (runningMsg (localStartCmd (Option.some (profileStr p)))),
            Event.run (localStartCmd (Option.some (profileStr p))),
            Event.print ("Startup complete for selected components: localai")]
    ∧ (mainRun env p Components.localai).2 = Except.ok ()
    ∧ Event.run cloneCmd ∉ (mainRun env p Components.localai).1
    ∧ Event.run pullCmd ∉ (mainRun env p Components.localai).1
    ∧ (∀ s d : String, Event.copyFile s d ∉ (mainRun env p Components.localai).1)
    ∧ Event.run supUpCmd ∉ (mainRun env p Components.localai).1 := by
  rw [mainRun_localai_eq env p]
  cases p <;>
    simp [stopTraceFor, cloneCmd, pullCmd, supUpCmd, downCmd, dockerPsCmd,
      localStartCmd, profileStr]

theorem run_command_true_ok (res : Cmd → Bool) (cmd : Cmd) (h : res cmd = true) :
    run_command res cmd true
      = ([Event.print (runningMsg cmd), Event.run cmd], Except.ok true) := by
  simp [run_command, h]

theorem run_command_true_fail (res : Cmd → Bool) (cmd : Cmd) (h : res cmd = false) :
    run_command res cmd true
      = ([Event.print (runningMsg cmd), Event.run cmd, Event.print ("Command failed")],
         Except.error ()) := by
  simp [run_command, h]

/-- Claim C6: when the checkout directory exists, the pull is invoked and none
of the clone-sequence commands is; when it is absent, the clone is invoked and
the pull is not (with the rest of the sequence following when every git step
succeeds). -/
theorem C6_clone_vs_pull (env : Env) :
    if env.supabaseDirExists then
      Event.run pullCmd ∈ (clone_supabase_repo env).1
      ∧ Event.run cloneCmd ∉ (clone_supabase_repo env).1
      ∧ Event.run sparseInitCmd ∉ (clone_supabase_repo env).1
      ∧ Event.run sparseSetCmd ∉ (clone_supabase_repo env).1
      ∧ Event.run checkoutCmd ∉ (clone_supabase_repo env).1
    else
      Event.run cloneCmd ∈ (clone_supabase_repo env).1
      ∧ Event.run pullCmd ∉ (clone_supabase_repo env).1
      ∧ (if gitStepsOkB env then
           Event.run sparseInitCmd ∈ (clone_supabase_repo env).1
           ∧ Event.run sparseSetCmd ∈ (clone_supabase_repo env).1
           ∧ Event.run checkoutCmd ∈ (clone_supabase_repo env).1
         else True) := by
  cases hd : env.supabaseDirExists
  · cases h1 : env.res cloneCmd <;> cases h2 : env.res sparseInitCmd <;>
      cases h3 : env.res sparseSetCmd <;> cases h4 : env.res checkoutCmd <;>
      (simp [clone_supabase_repo, gitStepsOkB, hd, emit, h1, h2, h3, h4,
         run_command_true_ok, run_command_true_fail]
       try decide)
  · cases h5 : env.res pullCmd <;>
      (simp [clone_supabase_repo, hd, emit, h5,
         run_command_true_ok, run_command_true_fail]
       try decide)

/-- Claim C9: `stop_existing_containers` never raises; with an empty selection
no external command is run, otherwise the `docker ps` probe and the
project-scoped `down` over the selected compose files are both issued. -/
theorem C9_stop_best_effort (res : Cmd → Bool) (sb la : Bool) :
    (stop_existing_containers res
        ((if sb then ["supabase"] else []) ++ (if la then ["localai"] else []))).2
      = Except.ok ()
    ∧ (if sb || la then
         Event.run dockerPsCmd
           ∈ (stop_existing_containers res
               ((if sb then ["supabase"] else []) ++ (if la then ["localai"] else []))).1
         ∧ Event.run (downCmd
             ((if sb then ["-f", "supabase/docker/docker-compose.yml"] else [])
               ++ (if la then ["-f", "docker-compose.yml"] else [])))
           ∈ (stop_existing_containers res
               ((if sb then ["supabase"] else []) ++ (if la then ["localai"] else []))).1
       else
         ∀ c : Cmd, Event.run c
           ∉ (stop_existing_containers res
               ((if sb then ["supabase"] else []) ++ (if la then ["localai"] else []))).1) := by
  cases sb <;> cases la <;>
    simp [stop_eq_nil, stop_eq_both, stop_eq_supabase, stop_eq_localai, stopTraceFor]

/-- Claim C10: whenever `clone_supabase_repo` returns normally, the working
directory at return is the working directory at entry. -/
theorem C10_cwd_restored (env : Env) (cwd : List String)
    (h : (clone_supabase_repo env).2 = Except.ok ()) :
    cwdAfter cwd (clone_supabase_repo env).1 = cwd := by
  cases hd : env.supabaseDirExists
  · cases h1 : env.res cloneCmd <;> cases h2 : env.res sparseInitCmd <;>
      cases h3 : env.res sparseSetCmd <;> cases h4 : env.res checkoutCmd <;>
      simp_all [clone_supabase_repo, hd, emit, run_command, cwdAfter, stepCwd]
  · cases h5 : env.res pullCmd <;>
      simp_all [clone_supabase_repo, hd, emit, run_command, cwdAfter, stepCwd]

/-- Witness for C10 at a concrete environment. -/
theorem C10_witness :
    cwdAfter ["home"] (clone_supabase_repo (Env.mk true true (fun _ => true))).1
      = ["home"] :=
  C10_cwd_restored (Env.mk true true (fun _ => true)) ["home"] (by rfl)

theorem mainRun_supabase_eq (env : Env) (p : Profile) (h : gitStepsOkB env = true) :
    mainRun env p Components.supabase
      = (cloneTraceOk env ++ prepTrace env
          ++ stopTraceFor ["supabase"] ["-f", "supabase/docker/docker-compose.yml"]
          ++ [Event.print ("Starting Supabase services..."),
              Event.print (runningMsg supUpCmd), Event.run supUpCmd,
              Event.print ("Startup complete for selected components: supabase")],
         Except.ok ()) := by
  cases hs : env.res supUpCmd <;>
    simp [mainRun, clone_ok_eq env h, stop_eq_supabase, componentsStr, M.pure, emit, hs]

theorem clone_fail_eq (env : Env) (h : gitStepsOkB env = false) :
    (clone_supabase_repo env).2 = Except.error () := by
  cases hd : env.supabaseDirExists
  · cases h1 : env.res cloneCmd <;> cases h2 : env.res sparseInitCmd <;>
      cases h3 : env.res sparseSetCmd <;> cases h4 : env.res checkoutCmd <;>
      simp_all [clone_supabase_repo, gitStepsOkB, hd, emit, run_command]
  · cases h5 : env.res pullCmd <;>
      simp_all [clone_supabase_repo, gitStepsOkB, hd, emit, run_command]

/-- Claim C2: when both stacks are started (`components=all`), a successful
Supabase start is followed by the 10-second sleep, which happens before the
local-stack start command; a failed Supabase start skips the sleep while the
local-stack start command is still issued. -/
theorem C2_sleep_between_starts (env : Env) (p : Profile)
    (h : gitStepsOkB env = true) :
    if env.res supUpCmd then
      ∃ a b, (mainRun env p Components.all).1 = a ++ Event.sleep 10 :: b
        ∧ Event.run (localStartCmd (Option.some (profileStr p))) ∈ b
    else
      Event.sleep 10 ∉ (mainRun env p Components.all).1
      ∧ Event.run (localStartCmd (Option.some (profileStr p)))
          ∈ (mainRun env p Components.all).1 := by
  rw [mainRun_all_eq env p h]
  cases hs : env.res supUpCmd
  · cases hd : env.supabaseDirExists <;> cases he : env.envFileExists <;>
      simp [cloneTraceOk, prepTrace, stopTraceFor, hd, he, hs]
  · simp only [hs, if_true]
    refine ⟨cloneTraceOk env ++ prepTrace env
        ++ stopTraceFor ["supabase", "localai"]
             ["-f", "supabase/docker/docker-compose.yml", "-f", "docker-compose.yml"]
        ++ [Event.print ("Starting Supabase services..."),
            Event.print (runningMsg supUpCmd), Event.run supUpCmd,
            Event.print ("Waiting for Supabase to initialize...")],
      [Event.print ("Starting local AI services..."),
       Event.print (runningMsg (localStartCmd (Option.some (profileStr p)))),
       Event.run (localStartCmd (Option.some (profileStr p))),
       Event.print ("Startup complete for selected components: all")], ?_, ?_⟩
    · simp
    · simp

/-- Witness for C2 at a concrete environment where every command succeeds. -/
theorem C2_witness :
    if (Env.mk true true (fun _ => true)).res supUpCmd then
      ∃ a b, (mainRun (Env.mk true true (fun _ => true)) Profile.cpu Components.all).1
          = a ++ Event.sleep 10 :: b
        ∧ Event.run (localStartCmd (Option.some (profileStr Profile.cpu))) ∈ b
    else
      Event.sleep 10
          ∉ (mainRun (Env.mk true true (fun _ => true)) Profile.cpu Components.all).1
      ∧ Event.run (localStartCmd (Option.some (profileStr Profile.cpu)))
          ∈ (mainRun (Env.mk true true (fun _ => true)) Profile.cpu Components.all).1 :=
  C2_sleep_between_starts (Env.mk true true (fun _ => true)) Profile.cpu (by decide)

/-- Claim C4: with `components=all`, both start commands are issued and the
single `down` command references both compose files. -/
theorem C4_all_commands (env : Env) (p : Profile) (h : gitStepsOkB env = true) :
    Event.run supUpCmd ∈ (mainRun env p Components.all).1
    ∧ Event.run (localStartCmd (Option.some (profileStr p)))
        ∈ (mainRun env p Components.all).1
    ∧ Event.run (downCmd
        ["-f", "supabase/docker/docker-compose.yml", "-f", "docker-compose.yml"])
        ∈ (mainRun env p Components.all).1 := by
  rw [mainRun_all_eq env p h]
  cases hs : env.res supUpCmd <;> simp [stopTraceFor, hs]

/-- Witness for C4 at a concrete environment where every command succeeds. -/
theorem C4_witness :
    Event.run supUpCmd
        ∈ (mainRun (Env.mk true true (fun _ => true)) Profile.cpu Components.all).1
    ∧ Event.run (localStartCmd (Option.some (profileStr Profile.cpu)))
        ∈ (mainRun (Env.mk true true (fun _ => true)) Profile.cpu Components.all).1
    ∧ Event.run (downCmd
        ["-f", "supabase/docker/docker-compose.yml", "-f", "docker-compose.yml"])
        ∈ (mainRun (Env.mk true true (fun _ => true)) Profile.cpu Components.all).1 :=
  C4_all_commands (Env.mk true true (fun _ => true)) Profile.cpu (by decide)

/-- Claim C7: for every invocation with Supabase selected (`components=all` or
`components=supabase`), an absent root `.env` makes the copy be skipped with a
warning while the run still completes; a present `.env` is copied
(overwriting) into `supabase/docker/.env`. -/
theorem C7_env_copy (env : Env) (p : Profile) (c : Components)
    (hc : c = Components.all ∨ c = Components.supabase)
    (h : gitStepsOkB env = true) :
    (if env.envFileExists then
       Event.copyFile (".env") ("supabase/docker/.env") ∈ (mainRun env p c).1
     else
       Event.print ("Warning: .env file not found in the root directory. Supabase might not work correctly.")
         ∈ (mainRun env p c).1
       ∧ (∀ s d : String, Event.copyFile s d ∉ (mainRun env p c).1))
    ∧ (mainRun env p c).2 = Except.ok () := by
  rcases hc with rfl | rfl
  · rw [mainRun_all_eq env p h]
    cases he : env.envFileExists <;> cases hd : env.supabaseDirExists <;>
      cases hs : env.res supUpCmd <;>
      simp [cloneTraceOk, prepTrace, stopTraceFor, hd, he, hs]
  · rw [mainRun_supabase_eq env p h]
    cases he : env.envFileExists <;> cases hd : env.supabaseDirExists <;>
      simp [cloneTraceOk, prepTrace, stopTraceFor, hd, he]

/-- Witness for C7 at a concrete environment with `components=supabase` and
the root `.env` absent. -/
theorem C7_witness :
    (if (Env.mk true false (fun _ => true)).envFileExists then
       Event.copyFile (".env") ("supabase/docker/.env")
         ∈ (mainRun (Env.mk true false (fun _ => true)) Profile.cpu Components.supabase).1
     else
       Event.print ("Warning: .env file not found in the root directory. Supabase might not work correctly.")
         ∈ (mainRun (Env.mk true false (fun _ => true)) Profile.cpu Components.supabase).1
       ∧ (∀ s d : String, Event.copyFile s d
            ∉ (mainRun (Env.mk true false (fun _ => true)) Profile.cpu Components.supabase).1))
    ∧ (mainRun (Env.mk true false (fun _ => true)) Profile.cpu Components.supabase).2
        = Except.ok () :=
  C7_env_copy (Env.mk true false (fun _ => true)) Profile.cpu Components.supabase
    (Or.inr rfl) (by decide)

/-- Keep only the externally visible actions of a trace: command runs, file
copies and sleeps (dropping prints and directory changes). -/
def actionsOf (tr : List Event) : List Event :=
  tr.filter (fun e =>
    match e with
    | Event.run _ => true
    | Event.copyFile _ _ => true
    | Event.sleep _ => true
    | _ => false)

/-- Claim C8: with no flags the defaults are `profile=cpu`, `components=all`,
and the external actions happen in order: clone-or-update of the companion
repo, env-file copy, `docker ps` probe, `down` over both compose files,
Supabase start, the 10-second sleep, and the local start carrying
`--profile cpu`. -/
theorem C8_default_run_order (env : Env)
    (h : gitStepsOkB env = true) (he : env.envFileExists = true)
    (hs : env.res supUpCmd = true) :
    defaultProfile = Profile.cpu
    ∧ defaultComponents = Components.all
    ∧ profileStr defaultProfile = "cpu"
    ∧ actionsOf (mainRun env defaultProfile defaultComponents).1
        = (if env.supabaseDirExists then [Event.run pullCmd]
           else [Event.run cloneCmd, Event.run sparseInitCmd, Event.run sparseSetCmd,
                 Event.run checkoutCmd])
          ++ [Event.copyFile (".env") ("supabase/docker/.env"),
              Event.run dockerPsCmd,
              Event.run (downCmd
                ["-f", "supabase/docker/docker-compose.yml", "-f", "docker-compose.yml"]),
              Event.run supUpCmd,
              Event.sleep 10,
              Event.run (localStartCmd (Option.some ("cpu")))]
    ∧ localStartCmd (Option.some ("cpu"))
        = ["docker", "compose", "-p", "localai", "--profile", "cpu",
           "-f", "docker-compose.yml", "up", "-d"] := by
  refine ⟨rfl, rfl, rfl, ?_, by decide⟩
  simp only [defaultProfile, defaultComponents]
  rw [mainRun_all_eq env Profile.cpu h]
  cases hd : env.supabaseDirExists <;>
    simp [actionsOf, cloneTraceOk, prepTrace, stopTraceFor, hd, he, hs, profileStr]

/-- Witness for C8 at a concrete environment where every command succeeds. -/
theorem C8_witness :
    defaultProfile = Profile.cpu
    ∧ defaultComponents = Components.all
    ∧ profileStr defaultProfile = "cpu"
    ∧ actionsOf (mainRun (Env.mk true true (fun _ => true))
          defaultProfile defaultComponents).1
        = (if (Env.mk true true (fun _ => true)).supabaseDirExists then [Event.run pullCmd]
           else [Event.run cloneCmd, Event.run sparseInitCmd, Event.run sparseSetCmd,
                 Event.run checkoutCmd])
          ++ [Event.copyFile (".env") ("supabase/docker/.env"),
              Event.run dockerPsCmd,
              Event.run (downCmd
                ["-f", "supabase/docker/docker-compose.yml", "-f", "docker-compose.yml"]),
              Event.run supUpCmd,
              Event.sleep 10,
              Event.run (localStartCmd (Option.some ("cpu")))]
    ∧ localStartCmd (Option.some ("cpu"))
        = ["docker", "compose", "-p", "localai", "--profile", "cpu",
           "-f", "docker-compose.yml", "up", "-d"] :=
  C8_default_run_order (Env.mk true true (fun _ => true)) (by decide) (by decide) (by decide)

/-- Counterexample to claim C1 as stated: with the checkout directory present
and every command succeeding except `git pull`, the pull is attempted and the
run aborts with the propagating exception, so the process does not continue to
completion. -/
theorem C1_pull_failure_aborts :
    (Env.mk true true (fun c => !(c == pullCmd))).supabaseDirExists = true
    ∧ (Env.mk true true (fun c => !(c == pullCmd))).res pullCmd = false
    ∧ Event.run pullCmd
        ∈ (mainRun (Env.mk true true (fun c => !(c == pullCmd)))
            Profile.cpu Components.all).1
    ∧ (mainRun (Env.mk true true (fun c => !(c == pullCmd)))
          Profile.cpu Components.all).2
        = Except.error () := by
  refine ⟨rfl, by decide, by decide, rfl⟩

/-- Amended claim C1: the process exits non-zero exactly when Supabase is
selected and one of the git commands of the ensure-companion-assets step fails
(the clone sequence when the checkout is absent, or the pull when it is
present); every container-runtime command failure is logged and the run
continues to completion.  In particular, a pull failure does abort the run. -/
theorem C1_exit_nonzero_iff_git_step_fails (env : Env) (p : Profile) (c : Components) :
    (mainRun env p c).2
      = (if (c = Components.all ∨ c = Components.supabase) ∧ gitStepsOkB env = false
         then Except.error () else Except.ok ()) := by
  cases c
  · cases hg : gitStepsOkB env
    · obtain ⟨tr, hc⟩ : ∃ tr, clone_supabase_repo env = (tr, Except.error ()) :=
        ⟨(clone_supabase_repo env).1, by rw [← clone_fail_eq env hg]⟩
      simp [mainRun, hc, M.pure]
    · rw [mainRun_all_eq env p hg]
      simp [hg]
  · cases hg : gitStepsOkB env
    · obtain ⟨tr, hc⟩ : ∃ tr, clone_supabase_repo env = (tr, Except.error ()) :=
        ⟨(clone_supabase_repo env).1, by rw [← clone_fail_eq env hg]⟩
      simp [mainRun, hc, M.pure]
    · rw [mainRun_supabase_eq env p hg]
      simp [hg]
  · rw [mainRun_localai_eq env p]
    simp
